import Mathlib

/-!
Shallow embedding of the crop-catalog core of the AgriAI backend
(`backend/app/services/crop_api_service.py`, `backend/app/services/crop_service.py`,
`backend/app/routers/crop_api.py`, `backend/app/crud/crud_crop_data.py`),
together with theorems settling the specification claims about it.

Numeric values (temperatures, rainfall, pH, scores) are modelled as rationals;
every score weight appearing in the source (0.4, 0.3, 0.2) is an exact decimal,
so rational arithmetic coincides with the source's float arithmetic at every
value these theorems touch.  Python exceptions are modelled with `Except String`.
-/

namespace AgriAI

/-- Lower-case one character, as Python's `str.lower` does on the ASCII range
(every string the pipeline compares is ASCII). -/
def pyLowerChar (c : Char) : Char :=
  if 'A' ≤ c ∧ c ≤ 'Z' then Char.ofNat (c.toNat + 32) else c

/-- Python's `str.lower` on ASCII strings. -/
def pyLower (s : String) : String :=
  ⟨s.data.map pyLowerChar⟩

/-- Whitespace characters removed by Python's `str.strip`. -/
def isPySpace (c : Char) : Bool :=
  c = ' ' ∨ c = '\t' ∨ c = '\n' ∨ c = '\r' ∨ c.toNat = 11 ∨ c.toNat = 12

/-- Python's `str.strip`: drop whitespace from both ends. -/
def pyStrip (s : String) : String :=
  ⟨((s.data.dropWhile isPySpace).reverse.dropWhile isPySpace).reverse⟩

/-- A raw crop record as produced by the source adapters: a dictionary whose
`crop_name` / `scientific_name` keys may be absent (`dict.get` then defaults),
tagged with the producing source.  Only the fields the merge/sync code reads
are modelled. -/
structure RawCrop where
  crop_name : Option String
  scientific_name : Option String
  data_source : String
deriving Repr, DecidableEq

/-- The deduplication key computed in `_remove_duplicate_crops`
(crop_api_service.py line 752):
`(crop.get("crop_name", "").lower(), crop.get("scientific_name", "").lower())`.
Note the source applies `.lower()` only — there is no `.strip()`. -/
def dedupKey (c : RawCrop) : String × String :=
  (pyLower (c.crop_name.getD ""), pyLower (c.scientific_name.getD ""))

/-- The key normalization the specification prescribes (spec sections 3 and 4.3):
`name.strip().lower()` paired with `scientific_name.strip().lower()` — trim then
case-fold.  Stated from the spec's words so it can be compared against the
source's `dedupKey`. -/
def specNormKey (c : RawCrop) : String × String :=
  (pyLower (pyStrip (c.crop_name.getD "")), pyLower (pyStrip (c.scientific_name.getD "")))

/-- Worker of `_remove_duplicate_crops`: walk the list, keeping a record only
when its `dedupKey` has not been seen yet.  The Python `set` of seen keys is
modelled as a list, membership being all the code uses. -/
def removeDuplicateCropsAux (seen : List (String × String)) : List RawCrop → List RawCrop
  | [] => []
  | c :: rest =>
    if dedupKey c ∈ seen then removeDuplicateCropsAux seen rest
    else c :: removeDuplicateCropsAux (dedupKey c :: seen) rest

/-- `_remove_duplicate_crops` (crop_api_service.py lines 746-757): keep the first
record for each `dedupKey`, discard later duplicates entirely. -/
def removeDuplicateCrops (crops : List RawCrop) : List RawCrop :=
  removeDuplicateCropsAux [] crops

/-- `get_all_crops_from_apis` (crop_api_service.py lines 712-744): concatenate the
per-source fetches in the fixed order local database, USDA, PlantNet, agricultural
fallback, then deduplicate.  The four adapter results are inputs here because the
adapters themselves are external I/O. -/
def get_all_crops_from_apis (localDb usda plantnet agri : List RawCrop) : List RawCrop :=
  removeDuplicateCrops (localDb ++ usda ++ plantnet ++ agri)

/-- The `ph_range` JSON column: a dictionary with optional `min` / `max` keys,
read through `dict.get` with defaults in the scorer.  `some pr` models a
non-empty dictionary (a truthy value in the `if ph_level and crop.ph_range`
guard). -/
structure PhRange where
  min : Option ℚ
  max : Option ℚ
deriving Repr, DecidableEq

/-- A row of the `crop_data` table (models/crop_data.py) restricted to the
columns the two scoring paths read.  Every column except `crop_name` is
nullable, hence `Option`. -/
structure CropData where
  crop_name : String
  scientific_name : Option String
  crop_category : Option String
  optimal_temperature_min : Option ℚ
  optimal_temperature_max : Option ℚ
  optimal_rainfall_min : Option ℚ
  optimal_rainfall_max : Option ℚ
  soil_type_preference : Option (List String)
  ph_range : Option PhRange
  growing_season : Option String
deriving Repr, DecidableEq

/-- Message of the exception Python raises when a chained comparison touches a
`None` column. -/
def typeErrMsg : String :=
  "TypeError: comparison not supported between NoneType and float"

/-- Message of the exception raised by `crop.growing_season.lower()` when the
column is `None`. -/
def attrErrMsg : String :=
  "AttributeError: NoneType object has no attribute lower"

/-- Temperature term of `_calculate_crop_suitability` (crop_service.py lines
120-124).  The chained comparison `min <= temp <= max` evaluates left to right
and short-circuits, so `max` is only forced when `min <= temp` holds; the
`elif` measures distance to the lower bound only, strictly below 5. -/
def tempScoreBasic (crop : CropData) (temp : ℚ) : Except String ℚ :=
  match crop.optimal_temperature_min with
  | none => .error typeErrMsg
  | some tmin =>
    if tmin ≤ temp then
      match crop.optimal_temperature_max with
      | none => .error typeErrMsg
      | some tmax =>
        if temp ≤ tmax then .ok (4/10)
        else if |temp - tmin| < 5 then .ok (2/10)
        else .ok 0
    else if |temp - tmin| < 5 then .ok (2/10)
    else .ok 0

/-- Rainfall term of `_calculate_crop_suitability` (crop_service.py lines
126-128): 0.3 inside the band, otherwise nothing. -/
def rainScoreBasic (crop : CropData) (rain : ℚ) : Except String ℚ :=
  match crop.optimal_rainfall_min with
  | none => .error typeErrMsg
  | some rmin =>
    if rmin ≤ rain then
      match crop.optimal_rainfall_max with
      | none => .error typeErrMsg
      | some rmax => if rain ≤ rmax then .ok (3/10) else .ok 0
    else .ok 0

/-- Season term of `_calculate_crop_suitability` (crop_service.py lines
130-132): 0.3 when `growing_season.lower()` equals the current season or is
`"year_round"`. -/
def seasonScoreBasic (crop : CropData) (season : String) : Except String ℚ :=
  match crop.growing_season with
  | none => .error attrErrMsg
  | some gs =>
    if pyLower gs = season ∨ pyLower gs = "year_round" then .ok (3/10) else .ok 0

/-- `_calculate_crop_suitability` (crop_service.py lines 118-134): the basic
scoring path, weights temperature 0.4, rainfall 0.3, season 0.3. -/
def calculateCropSuitability (crop : CropData) (temp rain : ℚ) (season : String) :
    Except String ℚ :=
  match tempScoreBasic crop temp with
  | .error e => .error e
  | .ok s1 =>
    match rainScoreBasic crop rain with
    | .error e => .error e
    | .ok s2 =>
      match seasonScoreBasic crop season with
      | .error e => .error e
      | .ok s3 => .ok (s1 + s2 + s3)

/-- Temperature factor of the enhanced recommendations endpoint (crop_api.py
lines 281-289): 0.3 inside the band, 0.2 when within 5 of either bound
(inclusive), else 0 flagged poor.  Chained comparison and `or` short-circuit
as in the source. -/
def tempScoreEnh (crop : CropData) (t : ℚ) : Except String (ℚ × String) :=
  match crop.optimal_temperature_min with
  | none => .error typeErrMsg
  | some tmin =>
    if tmin ≤ t then
      match crop.optimal_temperature_max with
      | none => .error typeErrMsg
      | some tmax =>
        if t ≤ tmax then .ok (3/10, "temperature_optimal")
        else if |t - tmin| ≤ 5 then .ok (2/10, "temperature_acceptable")
        else if |t - tmax| ≤ 5 then .ok (2/10, "temperature_acceptable")
        else .ok (0, "temperature_poor")
    else if |t - tmin| ≤ 5 then .ok (2/10, "temperature_acceptable")
    else
      match crop.optimal_temperature_max with
      | none => .error typeErrMsg
      | some tmax =>
        if |t - tmax| ≤ 5 then .ok (2/10, "temperature_acceptable")
        else .ok (0, "temperature_poor")

/-- Rainfall factor of the enhanced recommendations endpoint (crop_api.py lines
291-299), same shape as the temperature factor with a 200 mm band. -/
def rainScoreEnh (crop : CropData) (r : ℚ) : Except String (ℚ × String) :=
  match crop.optimal_rainfall_min with
  | none => .error typeErrMsg
  | some rmin =>
    if rmin ≤ r then
      match crop.optimal_rainfall_max with
      | none => .error typeErrMsg
      | some rmax =>
        if r ≤ rmax then .ok (3/10, "rainfall_optimal")
        else if |r - rmin| ≤ 200 then .ok (2/10, "rainfall_acceptable")
        else if |r - rmax| ≤ 200 then .ok (2/10, "rainfall_acceptable")
        else .ok (0, "rainfall_poor")
    else if |r - rmin| ≤ 200 then .ok (2/10, "rainfall_acceptable")
    else
      match crop.optimal_rainfall_max with
      | none => .error typeErrMsg
      | some rmax =>
        if |r - rmax| ≤ 200 then .ok (2/10, "rainfall_acceptable")
        else .ok (0, "rainfall_poor")

/-- Soil factor of the enhanced recommendations endpoint (crop_api.py lines
301-307).  The whole block is guarded by `if soil_type and
crop.soil_type_preference:`, where Python treats `None`, the empty string and
the empty list as false — when either operand is falsy the block is skipped,
contributing nothing and appending no factor. -/
def soilScoreEnh (crop : CropData) (soil : Option String) : ℚ × List String :=
  match soil, crop.soil_type_preference with
  | some st, some prefs =>
    if st ≠ "" ∧ prefs ≠ [] then
      if st ∈ prefs then (2/10, ["soil_optimal"]) else (0, ["soil_suboptimal"])
    else (0, [])
  | _, _ => (0, [])

/-- pH factor of the enhanced recommendations endpoint (crop_api.py lines
309-315), guarded by `if ph_level and crop.ph_range:` (a pH of 0.0 is falsy);
the range bounds default to 0 and 14 through `dict.get`. -/
def phScoreEnh (crop : CropData) (ph : Option ℚ) : ℚ × List String :=
  match ph, crop.ph_range with
  | some p, some pr =>
    if p ≠ 0 then
      if pr.min.getD 0 ≤ p ∧ p ≤ pr.max.getD 14 then (2/10, ["ph_optimal"])
      else (0, ["ph_suboptimal"])
    else (0, [])
  | _, _ => (0, [])

/-- Per-crop score and factor list of the enhanced recommendations endpoint
(crop_api.py lines 277-315): the four factor contributions summed, the factor
tags collected in evaluation order. -/
def enhancedScoreFactors (crop : CropData) (t r : ℚ) (soil : Option String)
    (ph : Option ℚ) : Except String (ℚ × List String) :=
  match tempScoreEnh crop t with
  | .error e => .error e
  | .ok tRes =>
    match rainScoreEnh crop r with
    | .error e => .error e
    | .ok rRes =>
      let sRes := soilScoreEnh crop soil
      let pRes := phScoreEnh crop ph
      .ok (tRes.1 + rRes.1 + sRes.1 + pRes.1, [tRes.2, rRes.2] ++ sRes.2 ++ pRes.2)

/-- `_get_current_season` (crop_service.py lines 112-116), as a function of the
calendar month. -/
def getCurrentSeason (month : Nat) : String :=
  if 6 ≤ month ∧ month ≤ 10 then "kharif"
  else if month = 11 ∨ month = 12 ∨ month = 1 ∨ month = 2 ∨ month = 3 then "rabi"
  else "zaid"

/-- Floor of a rational, computed directly on the numerator and denominator so
it evaluates by kernel reduction. -/
def ratFloor (x : ℚ) : ℤ :=
  Int.fdiv x.num x.den

/-- Round a rational to the nearest integer, ties to even — the rounding of
Python's built-in `round`. -/
def roundHalfEven (x : ℚ) : ℤ :=
  if x - ratFloor x < 1/2 then ratFloor x
  else if 1/2 < x - ratFloor x then ratFloor x + 1
  else if ratFloor x % 2 = 0 then ratFloor x else ratFloor x + 1

/-- Python's `round(score, 2)` applied to the suitability score before it is
stored in a recommendation entry. -/
def pyRound2 (q : ℚ) : ℚ :=
  (roundHalfEven (q * 100) : ℚ) / 100

/-- Insert into a list sorted in descending key order, before the first element
whose key is not larger — together with `sortDescBy` this is a stable
descending sort, the behaviour of Python's `list.sort(key=..., reverse=True)`. -/
def insertDescBy {α : Type} (key : α → ℚ) (a : α) : List α → List α
  | [] => [a]
  | x :: xs => if key x ≤ key a then a :: x :: xs else x :: insertDescBy key a xs

/-- Stable insertion sort, descending by `key`. -/
def sortDescBy {α : Type} (key : α → ℚ) : List α → List α
  | [] => []
  | x :: xs => insertDescBy key x (sortDescBy key xs)

/-- An entry of the basic recommendation list (crop_service.py lines 94-101),
restricted to the fields the claims are about; `suitability_score` holds the
rounded score as in the source. -/
structure BasicRec where
  crop : String
  scientific_name : Option String
  suitability_score : ℚ
  season : Option String
deriving Repr, DecidableEq

/-- Build the dictionary appended for one crop in `get_crop_recommendations`. -/
def mkBasicRec (c : CropData) (s : ℚ) : BasicRec :=
  ⟨c.crop_name, c.scientific_name, pyRound2 s, c.growing_season⟩

/-- Recommendation-building loop of `get_crop_recommendations` (crop_service.py
lines 88-101): score each catalog entry and keep it when the raw score is
strictly greater than 0.3.  An exception in the scorer aborts the whole
request, as in the source. -/
def basicRecsAux (crops : List CropData) (t r : ℚ) (season : String) :
    Except String (List BasicRec) :=
  match crops with
  | [] => .ok []
  | c :: rest =>
    match calculateCropSuitability c t r season with
    | .error e => .error e
    | .ok s =>
      match basicRecsAux rest t r season with
      | .error e => .error e
      | .ok tail => .ok (if 3/10 < s then mkBasicRec c s :: tail else tail)

/-- Core of `get_crop_recommendations` (crop_service.py lines 88-103): filter by
`score > 0.3`, then sort descending by the stored suitability score.  The
catalog snapshot and the current season are parameters; the surrounding
weather-fetching I/O is not part of the scoring logic. -/
def get_crop_recommendations_core (crops : List CropData) (t r : ℚ) (season : String) :
    Except String (List BasicRec) :=
  match basicRecsAux crops t r season with
  | .error e => .error e
  | .ok l => .ok (sortDescBy BasicRec.suitability_score l)

/-- An entry of the enhanced recommendation list (crop_api.py lines 319-339),
restricted to the fields the claims are about. -/
structure EnhRec where
  crop : String
  suitability_score : ℚ
  factors : List String
  growing_season : Option String
deriving Repr, DecidableEq

/-- Build the dictionary appended for one crop in the enhanced endpoint. -/
def mkEnhRec (c : CropData) (s : ℚ) (fs : List String) : EnhRec :=
  ⟨c.crop_name, pyRound2 s, fs, c.growing_season⟩

/-- Recommendation-building loop of the enhanced endpoint (crop_api.py lines
277-339): keep a crop when the raw score is at least 0.3. -/
def enhRecsAux (crops : List CropData) (t r : ℚ) (soil : Option String)
    (ph : Option ℚ) : Except String (List EnhRec) :=
  match crops with
  | [] => .ok []
  | c :: rest =>
    match enhancedScoreFactors c t r soil ph with
    | .error e => .error e
    | .ok sf =>
      match enhRecsAux rest t r soil ph with
      | .error e => .error e
      | .ok tail => .ok (if 3/10 ≤ sf.1 then mkEnhRec c sf.1 sf.2 :: tail else tail)

/-- `get_enhanced_crop_recommendations` (crop_api.py lines 249-354): filter by
`score >= 0.3`, then sort descending by the stored suitability score. -/
def get_enhanced_crop_recommendations (crops : List CropData) (t r : ℚ)
    (soil : Option String) (ph : Option ℚ) : Except String (List EnhRec) :=
  match enhRecsAux crops t r soil ph with
  | .error e => .error e
  | .ok l => .ok (sortDescBy EnhRec.suitability_score l)

/-- A row of the external store as `sync_crops_to_database` sees it: the lookup
only reads `id` and `crop_name`. -/
structure StoredCrop where
  id : Nat
  crop_name : String
deriving Repr, DecidableEq

/-- `CRUDCropData.get_crop_by_name` (crud_crop_data.py lines 6-7): first row
whose `crop_name` equals the query exactly. -/
def get_crop_by_name (db : List StoredCrop) (name : String) : Option StoredCrop :=
  db.find? (fun c => c.crop_name == name)

/-- The call `crop_data.update_crop(self.db, existing_crop.id, crop_data_dict)`
in `sync_crops_to_database` (crop_api_service.py line 775).  `CRUDCropData`
(crud_crop_data.py) defines only `get_crop_by_name`, `get_all_crops` and
`create_crop`, so the attribute lookup raises before anything runs. -/
def call_update_crop (_db : List StoredCrop) (_id : Nat) (_c : RawCrop) :
    Except String StoredCrop :=
  .error "AttributeError: CRUDCropData object has no attribute update_crop"

/-- The call `crop_data.create_crop(self.db, crop_data_dict)` in
`sync_crops_to_database` (crop_api_service.py line 780).  The method is
declared `create_crop(self, db, *, crop_in)` with `crop_in` keyword-only
(crud_crop_data.py line 12; seed_db.py calls it as `crop_in=...`), so passing
the crop dictionary positionally raises before the method body runs. -/
def call_create_crop_positional (_db : List StoredCrop) (_c : RawCrop) :
    Except String StoredCrop :=
  .error "TypeError: create_crop takes 2 positional arguments but 3 were given"

/-- Error string appended for a failing record
(`f"Error processing {crop_data_dict.get('crop_name', 'unknown')}: {e}"`). -/
def syncItemError (c : RawCrop) (e : String) : String :=
  "Error processing " ++ c.crop_name.getD "unknown" ++ ": " ++ e

/-- Outcome of one iteration of the sync loop. -/
inductive ItemOutcome
  | addedOne
  | updatedOne
  | failed (msg : String)
deriving Repr, DecidableEq

/-- One iteration of the loop in `sync_crops_to_database` (crop_api_service.py
lines 768-786): direct subscript `crop_data_dict["crop_name"]` (KeyError when
absent), lookup, then update or insert; any exception is caught and recorded. -/
def syncItem (db : List StoredCrop) (c : RawCrop) : ItemOutcome :=
  match c.crop_name with
  | none => .failed (syncItemError c "KeyError: crop_name")
  | some name =>
    match get_crop_by_name db name with
    | some existing =>
      match call_update_crop db existing.id c with
      | .ok _ => .updatedOne
      | .error e => .failed (syncItemError c e)
    | none =>
      match call_create_crop_positional db c with
      | .ok _ => .addedOne
      | .error e => .failed (syncItemError c e)

/-- Result dictionary of `sync_crops_to_database` (crop_api_service.py lines
788-793). -/
structure SyncResult where
  added : Nat
  updated : Nat
  errors : List String
  total_processed : Nat
deriving Repr, DecidableEq

/-- Accumulate one loop iteration of `sync_crops_to_database` into the
`(added, updated, errors)` counters. -/
def syncStep (db : List StoredCrop) (acc : Nat × Nat × List String) (c : RawCrop) :
    Nat × Nat × List String :=
  match syncItem db c with
  | .addedOne => (acc.1 + 1, acc.2.1, acc.2.2)
  | .updatedOne => (acc.1, acc.2.1 + 1, acc.2.2)
  | .failed m => (acc.1, acc.2.1, acc.2.2 ++ [m])

/-- `sync_crops_to_database` (crop_api_service.py lines 759-797).  The store is
not threaded through the fold because no iteration ever writes: both mutation
calls raise before touching the session. -/
def sync_crops_to_database (db : List StoredCrop) (crops : List RawCrop) : SyncResult :=
  let r := crops.foldl (syncStep db) (0, 0, [])
  ⟨r.1, r.2.1, r.2.2, crops.length⟩

/-- Result of `refresh_crop_database`: either the explicit error dictionary or
the sync result. -/
inductive RefreshResult
  | err (msg : String)
  | ok (r : SyncResult)
deriving Repr, DecidableEq

/-- `refresh_crop_database` (crop_api_service.py lines 799-820): aggregate all
sources, return the explicit error when nothing was fetched, otherwise sync. -/
def refresh_crop_database (db : List StoredCrop)
    (localDb usda plantnet agri : List RawCrop) : RefreshResult :=
  let crops := get_all_crops_from_apis localDb usda plantnet agri
  if crops.isEmpty then .err "No crops fetched from APIs"
  else .ok (sync_crops_to_database db crops)

/-! Generic lemmas about the stable descending insertion sort. -/

theorem mem_insertDescBy {α : Type} (key : α → ℚ) (a b : α) (l : List α) :
    b ∈ insertDescBy key a l ↔ b = a ∨ b ∈ l := by
  induction l with
  | nil => simp [insertDescBy]
  | cons x xs ih =>
    simp only [insertDescBy]
    split
    · simp [List.mem_cons]
    · simp only [List.mem_cons, ih]
      tauto

theorem pairwise_insertDescBy {α : Type} (key : α → ℚ) (a : α) (l : List α)
    (h : l.Pairwise (fun x y => key y ≤ key x)) :
    (insertDescBy key a l).Pairwise (fun x y => key y ≤ key x) := by
  induction l with
  | nil => simp [insertDescBy]
  | cons x xs ih =>
    rcases List.pairwise_cons.1 h with ⟨hx, hxs⟩
    simp only [insertDescBy]
    by_cases hcmp : key x ≤ key a
    · rw [if_pos hcmp]
      refine List.pairwise_cons.2 ⟨?_, h⟩
      intro b hb
      rcases List.mem_cons.1 hb with rfl | hb
      · exact hcmp
      · exact le_trans (hx _ hb) hcmp
    · rw [if_neg hcmp]
      refine List.pairwise_cons.2 ⟨?_, ih hxs⟩
      intro b hb
      rcases (mem_insertDescBy key a b xs).1 hb with rfl | hb
      · exact le_of_lt (lt_of_not_le hcmp)
      · exact hx _ hb

theorem pairwise_sortDescBy {α : Type} (key : α → ℚ) (l : List α) :
    (sortDescBy key l).Pairwise (fun x y => key y ≤ key x) := by
  induction l with
  | nil => simp [sortDescBy]
  | cons x xs ih => exact pairwise_insertDescBy key x _ ih

theorem mem_sortDescBy {α : Type} (key : α → ℚ) (b : α) (l : List α) :
    b ∈ sortDescBy key l ↔ b ∈ l := by
  induction l with
  | nil => exact Iff.rfl
  | cons x xs ih => simp [sortDescBy, mem_insertDescBy, ih]

/-! Lemmas about the deduplication pass. -/

theorem removeDuplicateCropsAux_key_spec (crops : List RawCrop)
    (seen : List (String × String)) :
    ((removeDuplicateCropsAux seen crops).map dedupKey).Nodup ∧
      ∀ k ∈ (removeDuplicateCropsAux seen crops).map dedupKey, k ∉ seen := by
  induction crops generalizing seen with
  | nil => simp [removeDuplicateCropsAux]
  | cons c rest ih =>
    by_cases h : dedupKey c ∈ seen
    · simp only [removeDuplicateCropsAux, if_pos h]
      exact ih seen
    · simp only [removeDuplicateCropsAux, if_neg h, List.map_cons]
      obtain ⟨hnd, hfresh⟩ := ih (dedupKey c :: seen)
      refine ⟨List.nodup_cons.2 ⟨fun hmem => ?_, hnd⟩, fun k hk hkseen => ?_⟩
      · exact hfresh _ hmem (List.mem_cons_self _ _)
      · rcases List.mem_cons.1 hk with rfl | hk
        · exact h hkseen
        · exact hfresh _ hk (List.mem_cons_of_mem _ hkseen)

theorem removeDuplicateCropsAux_covers (crops : List RawCrop)
    (seen : List (String × String)) :
    ∀ c ∈ crops,
      dedupKey c ∈ seen ∨ dedupKey c ∈ (removeDuplicateCropsAux seen crops).map dedupKey := by
  induction crops generalizing seen with
  | nil => simp
  | cons a rest ih =>
    intro c hc
    by_cases h : dedupKey a ∈ seen
    · simp only [removeDuplicateCropsAux, if_pos h]
      rcases List.mem_cons.1 hc with rfl | hc
      · exact Or.inl h
      · exact ih seen c hc
    · simp only [removeDuplicateCropsAux, if_neg h, List.map_cons]
      rcases List.mem_cons.1 hc with rfl | hc
      · exact Or.inr (List.mem_cons_self _ _)
      · rcases ih (dedupKey a :: seen) c hc with hmem | hmem
        · rcases List.mem_cons.1 hmem with heq | hmem
          · exact Or.inr (heq ▸ List.mem_cons_self _ _)
          · exact Or.inl hmem
        · exact Or.inr (List.mem_cons_of_mem _ hmem)

theorem removeDuplicateCrops_pair (a b : RawCrop) (h : dedupKey a = dedupKey b) :
    removeDuplicateCrops [a, b] = [a] := by
  simp [removeDuplicateCrops, removeDuplicateCropsAux, h]

/-! Range lemmas for the individual score factors. -/

theorem tempScoreBasic_ok {crop : CropData} {t s : ℚ}
    (h : tempScoreBasic crop t = .ok s) : s = 0 ∨ s = 2/10 ∨ s = 4/10 := by
  unfold tempScoreBasic at h
  repeat' split at h
  all_goals simp_all

theorem rainScoreBasic_ok {crop : CropData} {r s : ℚ}
    (h : rainScoreBasic crop r = .ok s) : s = 0 ∨ s = 3/10 := by
  unfold rainScoreBasic at h
  repeat' split at h
  all_goals simp_all

theorem seasonScoreBasic_ok {crop : CropData} {season : String} {s : ℚ}
    (h : seasonScoreBasic crop season = .ok s) : s = 0 ∨ s = 3/10 := by
  unfold seasonScoreBasic at h
  repeat' split at h
  all_goals simp_all

theorem tempScoreEnh_ok {crop : CropData} {t : ℚ} {sf : ℚ × String}
    (h : tempScoreEnh crop t = .ok sf) :
    sf.1 = 0 ∨ sf.1 = 2/10 ∨ sf.1 = 3/10 := by
  unfold tempScoreEnh at h
  repeat' split at h
  all_goals (first
    | (exfalso; exact Except.noConfusion h)
    | (rw [Except.ok.injEq] at h; subst h; norm_num))

theorem rainScoreEnh_ok {crop : CropData} {r : ℚ} {sf : ℚ × String}
    (h : rainScoreEnh crop r = .ok sf) :
    sf.1 = 0 ∨ sf.1 = 2/10 ∨ sf.1 = 3/10 := by
  unfold rainScoreEnh at h
  repeat' split at h
  all_goals (first
    | (exfalso; exact Except.noConfusion h)
    | (rw [Except.ok.injEq] at h; subst h; norm_num))

theorem soilScoreEnh_range (crop : CropData) (soil : Option String) :
    (soilScoreEnh crop soil).1 = 0 ∨ (soilScoreEnh crop soil).1 = 2/10 := by
  unfold soilScoreEnh
  repeat' split
  all_goals simp_all

theorem phScoreEnh_range (crop : CropData) (ph : Option ℚ) :
    (phScoreEnh crop ph).1 = 0 ∨ (phScoreEnh crop ph).1 = 2/10 := by
  unfold phScoreEnh
  repeat' split
  all_goals simp_all

theorem calculateCropSuitability_ok {crop : CropData} {t r : ℚ} {season : String} {s : ℚ}
    (h : calculateCropSuitability crop t r season = .ok s) :
    ∃ s1 s2 s3, tempScoreBasic crop t = .ok s1 ∧ rainScoreBasic crop r = .ok s2 ∧
      seasonScoreBasic crop season = .ok s3 ∧ s = s1 + s2 + s3 := by
  unfold calculateCropSuitability at h
  repeat' split at h
  all_goals first
    | (exfalso; exact Except.noConfusion h)
    | (rw [Except.ok.injEq] at h
       exact ⟨_, _, _, by assumption, by assumption, by assumption, h.symm⟩)

theorem enhancedScoreFactors_ok {crop : CropData} {t r : ℚ} {soil : Option String}
    {ph : Option ℚ} {sf : ℚ × List String}
    (h : enhancedScoreFactors crop t r soil ph = .ok sf) :
    ∃ tf rf, tempScoreEnh crop t = .ok tf ∧ rainScoreEnh crop r = .ok rf ∧
      sf.1 = tf.1 + rf.1 + (soilScoreEnh crop soil).1 + (phScoreEnh crop ph).1 ∧
      sf.2 = [tf.2, rf.2] ++ (soilScoreEnh crop soil).2 ++ (phScoreEnh crop ph).2 := by
  unfold enhancedScoreFactors at h
  repeat' split at h
  all_goals first
    | (exfalso; exact Except.noConfusion h)
    | (rw [Except.ok.injEq] at h
       subst h
       exact ⟨_, _, by assumption, by assumption, rfl, rfl⟩)

/-! Concrete sample data used by counterexamples and witnesses. -/

/-- A fully populated wheat profile, with the envelope of the source's default
growing-conditions table for wheat. -/
def wheatCrop : CropData :=
  { crop_name := "wheat", scientific_name := some "Triticum aestivum",
    crop_category := some "cereal",
    optimal_temperature_min := some 15, optimal_temperature_max := some 25,
    optimal_rainfall_min := some 500, optimal_rainfall_max := some 1000,
    soil_type_preference := some ["loamy", "clay_loam"],
    ph_range := some ⟨some 6, some (15/2)⟩, growing_season := some "rabi" }

/-- A fully populated corn profile, with the envelope of the source's default
growing-conditions table for corn. -/
def cornCrop : CropData :=
  { crop_name := "corn", scientific_name := some "Zea mays",
    crop_category := some "cereal",
    optimal_temperature_min := some 18, optimal_temperature_max := some 30,
    optimal_rainfall_min := some 600, optimal_rainfall_max := some 1200,
    soil_type_preference := some ["loamy", "sandy_loam"],
    ph_range := some ⟨some (11/2), some (15/2)⟩, growing_season := some "kharif" }

/-- A profile row whose nullable envelope columns are all NULL. -/
def noBoundsCrop : CropData :=
  { crop_name := "mystery", scientific_name := none, crop_category := none,
    optimal_temperature_min := none, optimal_temperature_max := none,
    optimal_rainfall_min := none, optimal_rainfall_max := none,
    soil_type_preference := none, ph_range := none, growing_season := none }

/-- A profile with a populated envelope but an empty soil-type list. -/
def emptySoilCrop : CropData :=
  { crop_name := "quinoa", scientific_name := some "Chenopodium quinoa",
    crop_category := some "cash_crop",
    optimal_temperature_min := some 18, optimal_temperature_max := some 30,
    optimal_rainfall_min := some 600, optimal_rainfall_max := some 1200,
    soil_type_preference := some [], ph_range := none,
    growing_season := some "kharif" }

theorem pyLower_rabi : pyLower "rabi" = "rabi" := rfl

theorem pyLower_kharif : pyLower "kharif" = "kharif" := rfl

/-! Concrete factor evaluations used to assemble witnesses. -/

theorem tempBasic_wheat_20 : tempScoreBasic wheatCrop 20 = .ok (4/10) := by
  simp only [tempScoreBasic, wheatCrop]
  norm_num

theorem rainBasic_wheat_800 : rainScoreBasic wheatCrop 800 = .ok (3/10) := by
  simp only [rainScoreBasic, wheatCrop]
  norm_num

theorem seasonBasic_wheat_rabi : seasonScoreBasic wheatCrop "rabi" = .ok (3/10) := by
  simp only [seasonScoreBasic, wheatCrop, pyLower_rabi]
  norm_num

theorem tempEnh_wheat_20 : tempScoreEnh wheatCrop 20 = .ok (3/10, "temperature_optimal") := by
  simp only [tempScoreEnh, wheatCrop]
  norm_num

theorem rainEnh_wheat_800 : rainScoreEnh wheatCrop 800 = .ok (3/10, "rainfall_optimal") := by
  simp only [rainScoreEnh, wheatCrop]
  norm_num

theorem soilEnh_wheat_loamy : soilScoreEnh wheatCrop (some "loamy") = (2/10, ["soil_optimal"]) :=
  rfl

theorem phEnh_wheat_7 : phScoreEnh wheatCrop (some 7) = (2/10, ["ph_optimal"]) := by
  simp only [phScoreEnh, wheatCrop]
  norm_num

theorem calc_wheat_perfect : calculateCropSuitability wheatCrop 20 800 "rabi" = .ok 1 := by
  simp only [calculateCropSuitability, tempBasic_wheat_20, rainBasic_wheat_800,
    seasonBasic_wheat_rabi]
  norm_num

theorem enh_wheat_perfect :
    enhancedScoreFactors wheatCrop 20 800 (some "loamy") (some 7) =
      .ok (1, ["temperature_optimal", "rainfall_optimal", "soil_optimal", "ph_optimal"]) := by
  simp only [enhancedScoreFactors, tempEnh_wheat_20, rainEnh_wheat_800, soilEnh_wheat_loamy,
    phEnh_wheat_7]
  norm_num

/-- C1.  For every crop profile and every weather context, the suitability
score computed by either scoring path — the basic `_calculate_crop_suitability`
and the enhanced-recommendations scorer — lies in the closed interval [0, 1]
whenever a score is produced. -/
theorem c1_scores_lie_in_unit_interval :
    (∀ (crop : CropData) (t r : ℚ) (season : String) (s : ℚ),
        calculateCropSuitability crop t r season = Except.ok s → 0 ≤ s ∧ s ≤ 1) ∧
    (∀ (crop : CropData) (t r : ℚ) (soil : Option String) (ph : Option ℚ)
        (sf : ℚ × List String),
        enhancedScoreFactors crop t r soil ph = Except.ok sf → 0 ≤ sf.1 ∧ sf.1 ≤ 1) := by
  constructor
  · intro crop t r season s h
    obtain ⟨s1, s2, s3, h1, h2, h3, rfl⟩ := calculateCropSuitability_ok h
    rcases tempScoreBasic_ok h1 with rfl | rfl | rfl <;>
      rcases rainScoreBasic_ok h2 with rfl | rfl <;>
      rcases seasonScoreBasic_ok h3 with rfl | rfl <;> norm_num
  · intro crop t r soil ph sf h
    obtain ⟨tf, rf, htf, hrf, hs, _⟩ := enhancedScoreFactors_ok h
    rw [hs]
    rcases tempScoreEnh_ok htf with h1 | h1 | h1 <;>
      rcases rainScoreEnh_ok hrf with h2 | h2 | h2 <;>
      rcases soilScoreEnh_range crop soil with h3 | h3 <;>
      rcases phScoreEnh_range crop ph with h4 | h4 <;>
      rw [h1, h2, h3, h4] <;> norm_num

/-- Witness for C1: both scoring paths evaluated on the wheat profile in
perfect wheat weather give the score 1, which lies in [0, 1]. -/
theorem c1_scores_lie_in_unit_interval_witness :
    ((0:ℚ) ≤ 1 ∧ (1:ℚ) ≤ 1) ∧ ((0:ℚ) ≤ 1 ∧ (1:ℚ) ≤ 1) := by
  constructor
  · exact c1_scores_lie_in_unit_interval.1 wheatCrop 20 800 "rabi" 1 calc_wheat_perfect
  · exact c1_scores_lie_in_unit_interval.2 wheatCrop 20 800 (some "loamy") (some 7)
      (1, ["temperature_optimal", "rainfall_optimal", "soil_optimal", "ph_optimal"])
      enh_wheat_perfect

/-! Raw records used by the merge claims. -/

/-- Scenario C's local record, with a trailing space in the name. -/
def wheatLocalRaw : RawCrop := ⟨some "Wheat ", some "Triticum Aestivum", "local_database"⟩

/-- Scenario C's USDA record. -/
def wheatUsdaRaw : RawCrop := ⟨some "wheat", some "triticum aestivum", "usda_api"⟩

/-- A local record whose name carries trailing whitespace. -/
def riceLocalRaw : RawCrop := ⟨some "Rice ", some "Oryza Sativa", "local_database"⟩

/-- A USDA record colliding with `riceLocalRaw` after trim and case-fold. -/
def riceUsdaRaw : RawCrop := ⟨some "rice", some "oryza sativa", "usda_api"⟩

/-- A local corn record. -/
def cornLocalRaw : RawCrop := ⟨some "Corn", some "Zea Mays", "local_database"⟩

/-- A USDA corn record colliding with `cornLocalRaw` after case-fold alone. -/
def cornUsdaRaw : RawCrop := ⟨some "corn", some "zea mays", "usda_api"⟩

/-- An agricultural-fallback chickpea record. -/
def chickpeaRaw : RawCrop := ⟨some "chickpea", some "Cicer arietinum", "agricultural_api"⟩

/-- C2 counterexample: Scenario C's two records agree on the spec's trim +
case-fold key, yet `_remove_duplicate_crops` keeps both, because the code's key
applies `lower()` without `strip()`. -/
theorem c2_scenario_c_produces_two_entries :
    specNormKey wheatLocalRaw = specNormKey wheatUsdaRaw ∧
    dedupKey wheatLocalRaw ≠ dedupKey wheatUsdaRaw ∧
    (removeDuplicateCrops [wheatLocalRaw, wheatUsdaRaw]).length = 2 :=
  ⟨rfl, by decide, rfl⟩

/-- C2 (amended): the catalog key is `(name.lower(), scientific_name.lower())`
with no trimming.  Under that key the catalog is duplicate-free: the merged
output's keys are pairwise distinct, and every input record's key is
represented, so two records agreeing after `lower()` alone yield exactly one
entry. -/
theorem c2_catalog_keys_unique_after_lower :
    ∀ crops : List RawCrop,
      ((removeDuplicateCrops crops).map dedupKey).Nodup ∧
      ∀ c ∈ crops, dedupKey c ∈ (removeDuplicateCrops crops).map dedupKey := by
  intro crops
  refine ⟨(removeDuplicateCropsAux_key_spec crops []).1, fun c hc => ?_⟩
  rcases removeDuplicateCropsAux_covers crops [] c hc with h | h
  · exact absurd h (List.not_mem_nil _)
  · exact h

/-- Witness for C2 (amended), on two corn records that collide after
case-fold. -/
theorem c2_catalog_keys_unique_after_lower_witness :
    ((removeDuplicateCrops [cornLocalRaw, cornUsdaRaw]).map dedupKey).Nodup ∧
      dedupKey cornUsdaRaw ∈ (removeDuplicateCrops [cornLocalRaw, cornUsdaRaw]).map dedupKey :=
  ⟨(c2_catalog_keys_unique_after_lower [cornLocalRaw, cornUsdaRaw]).1,
   (c2_catalog_keys_unique_after_lower [cornLocalRaw, cornUsdaRaw]).2 cornUsdaRaw
     (by simp)⟩

/-- C3 counterexample: two records from different sources whose spec-normalized
(trim + case-fold) keys agree are both kept by the merge, because the code
never strips, so "yields exactly one profile" fails as stated. -/
theorem c3_trimmed_collision_keeps_both :
    specNormKey riceLocalRaw = specNormKey riceUsdaRaw ∧
    riceLocalRaw.data_source = "local_database" ∧
    riceUsdaRaw.data_source = "usda_api" ∧
    get_all_crops_from_apis [riceLocalRaw] [riceUsdaRaw] [] [] = [riceLocalRaw, riceUsdaRaw] :=
  ⟨rfl, rfl, rfl, rfl⟩

/-- C3 (amended): for records whose keys agree after `lower()` alone (no trim),
the merge of the combined fetch keeps exactly the record from the
higher-priority source — priority order local database, USDA, PlantNet,
agricultural fallback — discarding the later duplicate entirely. -/
theorem c3_first_priority_source_wins :
    ∀ a b : RawCrop, dedupKey a = dedupKey b →
      get_all_crops_from_apis [a] [b] [] [] = [a] ∧
      get_all_crops_from_apis [a] [] [b] [] = [a] ∧
      get_all_crops_from_apis [a] [] [] [b] = [a] ∧
      get_all_crops_from_apis [] [a] [b] [] = [a] ∧
      get_all_crops_from_apis [] [a] [] [b] = [a] ∧
      get_all_crops_from_apis [] [] [a] [b] = [a] := by
  intro a b h
  have hpair : removeDuplicateCrops [a, b] = [a] := removeDuplicateCrops_pair a b h
  refine ⟨?_, ?_, ?_, ?_, ?_, ?_⟩ <;> simpa [get_all_crops_from_apis] using hpair

/-- Witness for C3 (amended): the local corn record wins over the USDA one. -/
theorem c3_first_priority_source_wins_witness :
    get_all_crops_from_apis [cornLocalRaw] [cornUsdaRaw] [] [] = [cornLocalRaw] :=
  (c3_first_priority_source_wins cornLocalRaw cornUsdaRaw rfl).1

/-- C4.  When the aggregation step yields no records at all,
`refresh_crop_database` returns the explicit error dictionary and never a sync
(success) result — in particular no "0 added" success and no store writes. -/
theorem c4_refresh_errors_when_nothing_fetched :
    ∀ (db : List StoredCrop) (localDb usda plantnet agri : List RawCrop),
      get_all_crops_from_apis localDb usda plantnet agri = [] →
      refresh_crop_database db localDb usda plantnet agri =
          .err "No crops fetched from APIs" ∧
      ∀ r : SyncResult, refresh_crop_database db localDb usda plantnet agri ≠ .ok r := by
  intro db l u p a h
  have he : refresh_crop_database db l u p a = .err "No crops fetched from APIs" := by
    simp [refresh_crop_database, h]
  exact ⟨he, fun r hr => by rw [he] at hr; exact RefreshResult.noConfusion hr⟩

/-- Witness for C4: all four adapters contribute nothing. -/
theorem c4_refresh_errors_when_nothing_fetched_witness :
    refresh_crop_database [] [] [] [] [] = .err "No crops fetched from APIs" :=
  (c4_refresh_errors_when_nothing_fetched [] [] [] [] [] rfl).1

/-- The error message one sync iteration records for a given record and store
state. -/
def syncItemMsg (db : List StoredCrop) (c : RawCrop) : String :=
  match c.crop_name with
  | none => syncItemError c "KeyError: crop_name"
  | some name =>
    match get_crop_by_name db name with
    | some _ =>
      syncItemError c "AttributeError: CRUDCropData object has no attribute update_crop"
    | none =>
      syncItemError c "TypeError: create_crop takes 2 positional arguments but 3 were given"

theorem syncItem_always_fails (db : List StoredCrop) (c : RawCrop) :
    syncItem db c = .failed (syncItemMsg db c) := by
  cases hn : c.crop_name with
  | none => simp [syncItem, syncItemMsg, hn]
  | some name =>
    cases hg : get_crop_by_name db name <;>
      simp [syncItem, syncItemMsg, hn, hg, call_update_crop, call_create_crop_positional]

theorem foldl_syncStep (db : List StoredCrop) (crops : List RawCrop) :
    ∀ acc : Nat × Nat × List String,
      crops.foldl (syncStep db) acc =
        (acc.1, acc.2.1, acc.2.2 ++ crops.map (syncItemMsg db)) := by
  induction crops with
  | nil => intro acc; simp
  | cons c rest ih =>
    intro acc
    rw [List.foldl_cons, ih]
    simp [syncStep, syncItem_always_fails db c]

/-- C9 (code bug).  `sync_crops_to_database` iterates every profile, looks each
one up by name and catches per-item exceptions into `errors` without aborting,
reporting `total_processed` equal to the batch length — but it can never insert
or update: the insert path calls `create_crop` with the crop dictionary
positional although `crop_in` is keyword-only, and the update path calls
`update_crop`, which `CRUDCropData` does not define.  Every item therefore
lands in `errors` and `added = updated = 0` always, contradicting the claimed
"inserted if absent or updated if present". -/
theorem c9_sync_never_inserts_or_updates :
    (∀ (db : List StoredCrop) (crops : List RawCrop),
        sync_crops_to_database db crops =
          ⟨0, 0, crops.map (syncItemMsg db), crops.length⟩) ∧
    sync_crops_to_database [] [chickpeaRaw] =
      ⟨0, 0,
        ["Error processing chickpea: TypeError: create_crop takes 2 positional arguments but 3 were given"],
        1⟩ := by
  constructor
  · intro db crops
    unfold sync_crops_to_database
    rw [foldl_syncStep]
    rfl
  · rfl

/-- C10.  The derived current season is a total deterministic function of the
calendar month: months 6-10 map to kharif, months 11, 12, 1, 2 and 3 map to
rabi, months 4 and 5 map to zaid; the result is always one of these three
strings and never "year_round", so the basic scorer's season factor always
compares against kharif, rabi or zaid. -/
theorem c10_current_season_mapping :
    ∀ m : Nat, 1 ≤ m → m ≤ 12 →
      (getCurrentSeason m = "kharif" ↔ (6 ≤ m ∧ m ≤ 10)) ∧
      (getCurrentSeason m = "rabi" ↔ (m = 11 ∨ m = 12 ∨ m = 1 ∨ m = 2 ∨ m = 3)) ∧
      (getCurrentSeason m = "zaid" ↔ (m = 4 ∨ m = 5)) ∧
      (getCurrentSeason m = "kharif" ∨ getCurrentSeason m = "rabi" ∨
        getCurrentSeason m = "zaid") ∧
      getCurrentSeason m ≠ "year_round" := by
  intro m h1 h2
  interval_cases m <;> decide

/-- Witness for C10, at July (month 7, a kharif month). -/
theorem c10_current_season_mapping_witness :
    (getCurrentSeason 7 = "kharif" ↔ (6 ≤ 7 ∧ 7 ≤ 10)) ∧
    (getCurrentSeason 7 = "rabi" ↔ (7 = 11 ∨ 7 = 12 ∨ 7 = 1 ∨ 7 = 2 ∨ 7 = 3)) ∧
    (getCurrentSeason 7 = "zaid" ↔ (7 = 4 ∨ 7 = 5)) ∧
    (getCurrentSeason 7 = "kharif" ∨ getCurrentSeason 7 = "rabi" ∨
      getCurrentSeason 7 = "zaid") ∧
    getCurrentSeason 7 ≠ "year_round" :=
  c10_current_season_mapping 7 (by norm_num) (by norm_num)

theorem basicRecsAux_mem {crops : List CropData} {t r : ℚ} {season : String}
    {l : List BasicRec} (h : basicRecsAux crops t r season = .ok l) :
    ∀ rec : BasicRec, rec ∈ l ↔ ∃ c ∈ crops, ∃ s : ℚ,
      calculateCropSuitability c t r season = .ok s ∧ 3/10 < s ∧ rec = mkBasicRec c s := by
  induction crops generalizing l with
  | nil =>
    simp only [basicRecsAux, Except.ok.injEq] at h
    subst h
    simp
  | cons c rest ih =>
    simp only [basicRecsAux] at h
    cases hs : calculateCropSuitability c t r season with
    | error e => rw [hs] at h; exact absurd h (fun hh => Except.noConfusion hh)
    | ok s =>
      rw [hs] at h
      cases ht : basicRecsAux rest t r season with
      | error e => rw [ht] at h; exact absurd h (fun hh => Except.noConfusion hh)
      | ok tail =>
        rw [ht, Except.ok.injEq] at h
        subst h
        intro rec
        by_cases hgt : 3/10 < s
        · rw [if_pos hgt]
          constructor
          · intro hmem
            rcases List.mem_cons.1 hmem with rfl | hmem
            · exact ⟨c, List.mem_cons_self _ _, s, hs, hgt, rfl⟩
            · obtain ⟨c', hc', s', h1, h2, h3⟩ := (ih ht rec).1 hmem
              exact ⟨c', List.mem_cons_of_mem _ hc', s', h1, h2, h3⟩
          · rintro ⟨c', hc', s', h1, h2, h3⟩
            rcases List.mem_cons.1 hc' with rfl | hc'
            · rw [hs, Except.ok.injEq] at h1
              subst h1
              exact h3 ▸ List.mem_cons_self _ _
            · exact List.mem_cons_of_mem _ ((ih ht rec).2 ⟨c', hc', s', h1, h2, h3⟩)
        · rw [if_neg hgt]
          constructor
          · intro hmem
            obtain ⟨c', hc', s', h1, h2, h3⟩ := (ih ht rec).1 hmem
            exact ⟨c', List.mem_cons_of_mem _ hc', s', h1, h2, h3⟩
          · rintro ⟨c', hc', s', h1, h2, h3⟩
            rcases List.mem_cons.1 hc' with rfl | hc'
            · rw [hs, Except.ok.injEq] at h1
              exact absurd (h1 ▸ h2) hgt
            · exact (ih ht rec).2 ⟨c', hc', s', h1, h2, h3⟩

theorem enhRecsAux_mem {crops : List CropData} {t r : ℚ} {soil : Option String}
    {ph : Option ℚ} {l : List EnhRec} (h : enhRecsAux crops t r soil ph = .ok l) :
    ∀ rec : EnhRec, rec ∈ l ↔ ∃ c ∈ crops, ∃ sf : ℚ × List String,
      enhancedScoreFactors c t r soil ph = .ok sf ∧ 3/10 ≤ sf.1 ∧
      rec = mkEnhRec c sf.1 sf.2 := by
  induction crops generalizing l with
  | nil =>
    simp only [enhRecsAux, Except.ok.injEq] at h
    subst h
    simp
  | cons c rest ih =>
    simp only [enhRecsAux] at h
    cases hs : enhancedScoreFactors c t r soil ph with
    | error e => rw [hs] at h; exact absurd h (fun hh => Except.noConfusion hh)
    | ok sf =>
      rw [hs] at h
      cases ht : enhRecsAux rest t r soil ph with
      | error e => rw [ht] at h; exact absurd h (fun hh => Except.noConfusion hh)
      | ok tail =>
        rw [ht, Except.ok.injEq] at h
        subst h
        intro rec
        by_cases hge : 3/10 ≤ sf.1
        · rw [if_pos hge]
          constructor
          · intro hmem
            rcases List.mem_cons.1 hmem with rfl | hmem
            · exact ⟨c, List.mem_cons_self _ _, sf, hs, hge, rfl⟩
            · obtain ⟨c', hc', sf', h1, h2, h3⟩ := (ih ht rec).1 hmem
              exact ⟨c', List.mem_cons_of_mem _ hc', sf', h1, h2, h3⟩
          · rintro ⟨c', hc', sf', h1, h2, h3⟩
            rcases List.mem_cons.1 hc' with rfl | hc'
            · rw [hs, Except.ok.injEq] at h1
              subst h1
              exact h3 ▸ List.mem_cons_self _ _
            · exact List.mem_cons_of_mem _ ((ih ht rec).2 ⟨c', hc', sf', h1, h2, h3⟩)
        · rw [if_neg hge]
          constructor
          · intro hmem
            obtain ⟨c', hc', sf', h1, h2, h3⟩ := (ih ht rec).1 hmem
            exact ⟨c', List.mem_cons_of_mem _ hc', sf', h1, h2, h3⟩
          · rintro ⟨c', hc', sf', h1, h2, h3⟩
            rcases List.mem_cons.1 hc' with rfl | hc'
            · rw [hs, Except.ok.injEq] at h1
              exact absurd (h1 ▸ h2) hge
            · exact (ih ht rec).2 ⟨c', hc', sf', h1, h2, h3⟩

theorem tempBasic_corn_50 : tempScoreBasic cornCrop 50 = .ok 0 := by
  simp only [tempScoreBasic, cornCrop]
  norm_num [abs_lt]

theorem rainBasic_corn_0 : rainScoreBasic cornCrop 0 = .ok 0 := by
  simp only [rainScoreBasic, cornCrop]
  norm_num

theorem seasonBasic_corn_kharif : seasonScoreBasic cornCrop "kharif" = .ok (3/10) := by
  simp only [seasonScoreBasic, cornCrop, pyLower_kharif]
  norm_num

theorem calc_corn_50_0 : calculateCropSuitability cornCrop 50 0 "kharif" = .ok (3/10) := by
  simp only [calculateCropSuitability, tempBasic_corn_50, rainBasic_corn_0,
    seasonBasic_corn_kharif]
  norm_num

theorem core_corn_empty : get_crop_recommendations_core [cornCrop] 50 0 "kharif" = .ok [] := by
  simp only [get_crop_recommendations_core, basicRecsAux, calc_corn_50_0]
  norm_num [sortDescBy]

/-- C5 counterexample: in the basic path a crop scoring exactly 0.3 — a score
not below the 0.3 threshold — is dropped, because `get_crop_recommendations`
filters with strict `score > 0.3`. -/
theorem c5_exact_threshold_dropped_in_basic_path :
    calculateCropSuitability cornCrop 50 0 "kharif" = .ok (3/10) ∧
    (3:ℚ)/10 ≥ 3/10 ∧
    get_crop_recommendations_core [cornCrop] 50 0 "kharif" = .ok [] :=
  ⟨calc_corn_50_0, le_refl _, core_corn_empty⟩

/-- C5 (amended).  The basic path returns exactly the entries whose raw score
is strictly greater than 0.3, while the enhanced path returns exactly those
with score at least 0.3; both lists are sorted in descending order of the
stored suitability score, and an empty catalog yields an empty list, not an
error. -/
theorem c5_threshold_filter_and_sort :
    (∀ (crops : List CropData) (t r : ℚ) (season : String) (out : List BasicRec),
        get_crop_recommendations_core crops t r season = Except.ok out →
          (∀ rec ∈ out, ∃ c ∈ crops, ∃ s : ℚ,
              calculateCropSuitability c t r season = Except.ok s ∧ 3/10 < s ∧
              rec = mkBasicRec c s) ∧
          (∀ c ∈ crops, ∀ s : ℚ, calculateCropSuitability c t r season = Except.ok s →
              3/10 < s → mkBasicRec c s ∈ out) ∧
          out.Pairwise (fun a b => b.suitability_score ≤ a.suitability_score)) ∧
    (∀ (crops : List CropData) (t r : ℚ) (soil : Option String) (ph : Option ℚ)
        (out : List EnhRec),
        get_enhanced_crop_recommendations crops t r soil ph = Except.ok out →
          (∀ rec ∈ out, ∃ c ∈ crops, ∃ sf : ℚ × List String,
              enhancedScoreFactors c t r soil ph = Except.ok sf ∧ 3/10 ≤ sf.1 ∧
              rec = mkEnhRec c sf.1 sf.2) ∧
          (∀ c ∈ crops, ∀ sf : ℚ × List String,
              enhancedScoreFactors c t r soil ph = Except.ok sf →
              3/10 ≤ sf.1 → mkEnhRec c sf.1 sf.2 ∈ out) ∧
          out.Pairwise (fun a b => b.suitability_score ≤ a.suitability_score)) ∧
    (∀ (t r : ℚ) (season : String),
        get_crop_recommendations_core [] t r season = Except.ok []) ∧
    (∀ (t r : ℚ) (soil : Option String) (ph : Option ℚ),
        get_enhanced_crop_recommendations [] t r soil ph = Except.ok []) := by
  refine ⟨?_, ?_, fun t r season => rfl, fun t r soil ph => rfl⟩
  · intro crops t r season out h
    simp only [get_crop_recommendations_core] at h
    cases ha : basicRecsAux crops t r season with
    | error e => rw [ha] at h; exact absurd h (fun hh => Except.noConfusion hh)
    | ok l =>
      rw [ha, Except.ok.injEq] at h
      subst h
      refine ⟨?_, ?_, pairwise_sortDescBy _ l⟩
      · intro rec hrec
        exact (basicRecsAux_mem ha rec).1 ((mem_sortDescBy _ rec l).1 hrec)
      · intro c hc s hs hgt
        exact (mem_sortDescBy _ _ l).2 ((basicRecsAux_mem ha _).2 ⟨c, hc, s, hs, hgt, rfl⟩)
  · intro crops t r soil ph out h
    simp only [get_enhanced_crop_recommendations] at h
    cases ha : enhRecsAux crops t r soil ph with
    | error e => rw [ha] at h; exact absurd h (fun hh => Except.noConfusion hh)
    | ok l =>
      rw [ha, Except.ok.injEq] at h
      subst h
      refine ⟨?_, ?_, pairwise_sortDescBy _ l⟩
      · intro rec hrec
        exact (enhRecsAux_mem ha rec).1 ((mem_sortDescBy _ rec l).1 hrec)
      · intro c hc sf hs hge
        exact (mem_sortDescBy _ _ l).2 ((enhRecsAux_mem ha _).2 ⟨c, hc, sf, hs, hge, rfl⟩)

/-- Witness for C5 (amended): the one-crop catalog at the exact-threshold
context yields a (vacuously) descending-sorted empty result. -/
theorem c5_threshold_filter_and_sort_witness :
    ([] : List BasicRec).Pairwise
      (fun a b => b.suitability_score ≤ a.suitability_score) :=
  (c5_threshold_filter_and_sort.1 [cornCrop] 50 0 "kharif" [] core_corn_empty).2.2

theorem tempBasic_corn_33 : tempScoreBasic cornCrop 33 = .ok 0 := by
  simp only [tempScoreBasic, cornCrop]
  norm_num [abs_lt]

theorem tempEnh_corn_33 : tempScoreEnh cornCrop 33 = .ok (2/10, "temperature_acceptable") := by
  simp only [tempScoreEnh, cornCrop]
  norm_num [abs_le]

/-- C6 counterexample: for the 18-30 °C corn profile at 33 °C — outside the
range but within the 5 °C tolerance band of the upper bound — the basic path's
temperature factor contributes 0, not the claimed partial weight 0.2; the
enhanced path does give 0.2, so the claimed behaviour does not hold in both
paths. -/
theorem c6_upper_band_zero_in_basic_path :
    ¬ ((18:ℚ) ≤ 33 ∧ (33:ℚ) ≤ 30) ∧
    |(33:ℚ) - 30| ≤ 5 ∧
    tempScoreBasic cornCrop 33 = .ok 0 ∧
    tempScoreEnh cornCrop 33 = .ok (2/10, "temperature_acceptable") :=
  ⟨by norm_num, by norm_num, tempBasic_corn_33, tempEnh_corn_33⟩

/-- C6 (amended).  With both temperature bounds set, the enhanced path's
temperature factor contributes the full weight inside the range, the partial
weight 0.2 when within 5 °C (inclusive) of either bound, and zero otherwise;
the basic path contributes its full weight inside the range but gives the
partial 0.2 only when the temperature is strictly within 5 °C of the lower
bound — a temperature near only the upper bound contributes zero there. -/
theorem c6_temperature_factor_characterized :
    ∀ (crop : CropData) (tmin tmax t : ℚ),
      crop.optimal_temperature_min = some tmin →
      crop.optimal_temperature_max = some tmax →
      (tempScoreEnh crop t =
        if tmin ≤ t ∧ t ≤ tmax then Except.ok (3/10, "temperature_optimal")
        else if |t - tmin| ≤ 5 ∨ |t - tmax| ≤ 5 then
          Except.ok (2/10, "temperature_acceptable")
        else Except.ok (0, "temperature_poor")) ∧
      (tempScoreBasic crop t =
        if tmin ≤ t ∧ t ≤ tmax then Except.ok (4/10)
        else if |t - tmin| < 5 then Except.ok (2/10)
        else Except.ok 0) := by
  intro crop tmin tmax t hmin hmax
  constructor
  · simp only [tempScoreEnh, hmin, hmax]
    by_cases h1 : tmin ≤ t <;> by_cases h2 : t ≤ tmax <;>
      by_cases h3 : |t - tmin| ≤ 5 <;> by_cases h4 : |t - tmax| ≤ 5 <;>
      simp [h1, h2, h3, h4]
  · simp only [tempScoreBasic, hmin, hmax]
    by_cases h1 : tmin ≤ t <;> by_cases h2 : t ≤ tmax <;>
      by_cases h3 : |t - tmin| < 5 <;>
      simp [h1, h2, h3]

/-- Witness for C6 (amended), instantiated at the corn profile and 33 °C. -/
theorem c6_temperature_factor_characterized_witness :
    (tempScoreEnh cornCrop 33 =
      if (18:ℚ) ≤ 33 ∧ (33:ℚ) ≤ 30 then Except.ok (3/10, "temperature_optimal")
      else if |(33:ℚ) - 18| ≤ 5 ∨ |(33:ℚ) - 30| ≤ 5 then
        Except.ok (2/10, "temperature_acceptable")
      else Except.ok (0, "temperature_poor")) ∧
    (tempScoreBasic cornCrop 33 =
      if (18:ℚ) ≤ 33 ∧ (33:ℚ) ≤ 30 then Except.ok (4/10)
      else if |(33:ℚ) - 18| < 5 then Except.ok (2/10)
      else Except.ok 0) :=
  c6_temperature_factor_characterized cornCrop 18 30 33 rfl rfl

/-- Boolean success test for an `Except`-modelled Python call. -/
def isOkExcept {α : Type} (e : Except String α) : Bool :=
  match e with
  | .ok _ => true
  | .error _ => false

theorem tempScoreEnh_total {crop : CropData} {a b : ℚ} (t : ℚ)
    (hmin : crop.optimal_temperature_min = some a)
    (hmax : crop.optimal_temperature_max = some b) :
    ∃ sf, tempScoreEnh crop t = .ok sf := by
  simp only [tempScoreEnh, hmin, hmax]
  repeat' split
  all_goals exact ⟨_, rfl⟩

theorem rainScoreEnh_total {crop : CropData} {a b : ℚ} (r : ℚ)
    (hmin : crop.optimal_rainfall_min = some a)
    (hmax : crop.optimal_rainfall_max = some b) :
    ∃ sf, rainScoreEnh crop r = .ok sf := by
  simp only [rainScoreEnh, hmin, hmax]
  repeat' split
  all_goals exact ⟨_, rfl⟩

theorem tempScoreBasic_total {crop : CropData} {a b : ℚ} (t : ℚ)
    (hmin : crop.optimal_temperature_min = some a)
    (hmax : crop.optimal_temperature_max = some b) :
    ∃ s, tempScoreBasic crop t = .ok s := by
  simp only [tempScoreBasic, hmin, hmax]
  repeat' split
  all_goals exact ⟨_, rfl⟩

theorem rainScoreBasic_total {crop : CropData} {a b : ℚ} (r : ℚ)
    (hmin : crop.optimal_rainfall_min = some a)
    (hmax : crop.optimal_rainfall_max = some b) :
    ∃ s, rainScoreBasic crop r = .ok s := by
  simp only [rainScoreBasic, hmin, hmax]
  repeat' split
  all_goals exact ⟨_, rfl⟩

theorem seasonScoreBasic_total {crop : CropData} {gs : String} (season : String)
    (hgs : crop.growing_season = some gs) :
    ∃ s, seasonScoreBasic crop season = .ok s := by
  simp only [seasonScoreBasic, hgs]
  split
  all_goals exact ⟨_, rfl⟩

/-- C7 counterexample: a profile row whose envelope columns are NULL makes both
scoring paths raise a TypeError on the very first comparison instead of
treating the missing bounds as unconstrained and running to completion. -/
theorem c7_missing_bounds_raise :
    noBoundsCrop.optimal_temperature_min = none ∧
    calculateCropSuitability noBoundsCrop 25 500 "kharif" = .error typeErrMsg ∧
    enhancedScoreFactors noBoundsCrop 25 500 none none = .error typeErrMsg :=
  ⟨rfl, rfl, rfl⟩

/-- C7 (amended).  Scoring never raises on missing soil-type or pH data —
those factors are skipped — and runs to completion whenever the numeric
envelope bounds (and, for the basic path, the growing season) are present; but
a profile whose temperature bounds are NULL makes both scorers raise a
TypeError, i.e. a missing numeric bound is not treated as unconstrained. -/
theorem c7_missing_numeric_bounds_raise_missing_soil_ph_skip :
    (∀ (crop : CropData) (t r : ℚ) (soil : Option String) (ph : Option ℚ)
        (a b c d : ℚ),
        crop.optimal_temperature_min = some a →
        crop.optimal_temperature_max = some b →
        crop.optimal_rainfall_min = some c →
        crop.optimal_rainfall_max = some d →
        ∃ sf, enhancedScoreFactors crop t r soil ph = Except.ok sf) ∧
    (∀ (crop : CropData) (t r : ℚ) (season : String) (a b c d : ℚ) (gs : String),
        crop.optimal_temperature_min = some a →
        crop.optimal_temperature_max = some b →
        crop.optimal_rainfall_min = some c →
        crop.optimal_rainfall_max = some d →
        crop.growing_season = some gs →
        ∃ s, calculateCropSuitability crop t r season = Except.ok s) ∧
    (∀ (crop : CropData) (t r : ℚ) (soil : Option String) (ph : Option ℚ),
        crop.optimal_temperature_min = none →
        enhancedScoreFactors crop t r soil ph = Except.error typeErrMsg) ∧
    (∀ (crop : CropData) (t r : ℚ) (season : String),
        crop.optimal_temperature_min = none →
        calculateCropSuitability crop t r season = Except.error typeErrMsg) := by
  refine ⟨?_, ?_, ?_, ?_⟩
  · intro crop t r soil ph a b c d hta htb hra hrb
    obtain ⟨tf, htf⟩ := tempScoreEnh_total t hta htb
    obtain ⟨rf, hrf⟩ := rainScoreEnh_total r hra hrb
    refine ⟨(tf.1 + rf.1 + (soilScoreEnh crop soil).1 + (phScoreEnh crop ph).1,
             [tf.2, rf.2] ++ (soilScoreEnh crop soil).2 ++ (phScoreEnh crop ph).2), ?_⟩
    simp only [enhancedScoreFactors, htf, hrf]
  · intro crop t r season a b c d gs hta htb hra hrb hgs
    obtain ⟨s1, h1⟩ := tempScoreBasic_total t hta htb
    obtain ⟨s2, h2⟩ := rainScoreBasic_total r hra hrb
    obtain ⟨s3, h3⟩ := seasonScoreBasic_total season hgs
    exact ⟨s1 + s2 + s3, by simp only [calculateCropSuitability, h1, h2, h3]⟩
  · intro crop t r soil ph h
    simp only [enhancedScoreFactors, tempScoreEnh, h]
  · intro crop t r season h
    simp only [calculateCropSuitability, tempScoreBasic, h]

/-- Witness for C7 (amended): a populated-envelope profile with empty soil list
and no pH scores without raising, and the all-NULL profile raises in both
paths. -/
theorem c7_missing_numeric_bounds_raise_witness :
    isOkExcept (enhancedScoreFactors emptySoilCrop 25 800 (some "clay") none) = true ∧
    enhancedScoreFactors noBoundsCrop 25 500 none none = Except.error typeErrMsg ∧
    calculateCropSuitability noBoundsCrop 25 500 "kharif" = Except.error typeErrMsg := by
  refine ⟨?_, ?_, ?_⟩
  · obtain ⟨sf, h⟩ := c7_missing_numeric_bounds_raise_missing_soil_ph_skip.1
      emptySoilCrop 25 800 (some "clay") none 18 30 600 1200 rfl rfl rfl rfl
    rw [h]
    rfl
  · exact c7_missing_numeric_bounds_raise_missing_soil_ph_skip.2.2.1
      noBoundsCrop 25 500 none none rfl
  · exact c7_missing_numeric_bounds_raise_missing_soil_ph_skip.2.2.2
      noBoundsCrop 25 500 "kharif" rfl

theorem tempScoreEnh_ok_factor {crop : CropData} {t : ℚ} {sf : ℚ × String}
    (h : tempScoreEnh crop t = .ok sf) :
    sf.2 = "temperature_optimal" ∨ sf.2 = "temperature_acceptable" ∨
      sf.2 = "temperature_poor" := by
  unfold tempScoreEnh at h
  repeat' split at h
  all_goals (first
    | (exfalso; exact Except.noConfusion h)
    | (rw [Except.ok.injEq] at h; subst h; simp))

theorem rainScoreEnh_ok_factor {crop : CropData} {r : ℚ} {sf : ℚ × String}
    (h : rainScoreEnh crop r = .ok sf) :
    sf.2 = "rainfall_optimal" ∨ sf.2 = "rainfall_acceptable" ∨
      sf.2 = "rainfall_poor" := by
  unfold rainScoreEnh at h
  repeat' split at h
  all_goals (first
    | (exfalso; exact Except.noConfusion h)
    | (rw [Except.ok.injEq] at h; subst h; simp))

theorem phScoreEnh_factor (crop : CropData) (ph : Option ℚ) :
    (phScoreEnh crop ph).2 = [] ∨ (phScoreEnh crop ph).2 = ["ph_optimal"] ∨
      (phScoreEnh crop ph).2 = ["ph_suboptimal"] := by
  unfold phScoreEnh
  repeat' split
  all_goals simp

theorem tempEnh_emptySoil_25 :
    tempScoreEnh emptySoilCrop 25 = .ok (3/10, "temperature_optimal") := by
  simp only [tempScoreEnh, emptySoilCrop]
  norm_num

theorem rainEnh_emptySoil_800 :
    rainScoreEnh emptySoilCrop 800 = .ok (3/10, "rainfall_optimal") := by
  simp only [rainScoreEnh, emptySoilCrop]
  norm_num

theorem soilEnh_emptySoil_clay : soilScoreEnh emptySoilCrop (some "clay") = (0, []) := rfl

theorem phEnh_emptySoil_none : phScoreEnh emptySoilCrop none = (0, []) := rfl

theorem enh_emptySoil_clay :
    enhancedScoreFactors emptySoilCrop 25 800 (some "clay") none =
      .ok (3/5, ["temperature_optimal", "rainfall_optimal"]) := by
  simp only [enhancedScoreFactors, tempEnh_emptySoil_25, rainEnh_emptySoil_800,
    soilEnh_emptySoil_clay, phEnh_emptySoil_none]
  norm_num

/-- C8 counterexample: with a supplied soil type "clay" and an empty
`soil_type_preference`, the enhanced scorer contributes zero for soil and does
not raise — but the result carries no `soil_suboptimal` flag at all, because
the `if soil_type and crop.soil_type_preference` guard skips the whole soil
block when the preference list is empty. -/
theorem c8_empty_soil_not_flagged :
    emptySoilCrop.soil_type_preference = some [] ∧
    enhancedScoreFactors emptySoilCrop 25 800 (some "clay") none =
      .ok (3/5, ["temperature_optimal", "rainfall_optimal"]) ∧
    "soil_suboptimal" ∉ ["temperature_optimal", "rainfall_optimal"] :=
  ⟨rfl, enh_emptySoil_clay, by decide⟩

/-- C8 (amended).  When the context supplies a soil type but the profile's
soil list is empty or unset, the soil factor contributes zero and scoring does
not raise on the missing soil data, but no soil flag is recorded: neither
`soil_suboptimal` nor `soil_optimal` appears among the factors — the soil
block is skipped entirely. -/
theorem c8_empty_soil_skipped_unflagged :
    ∀ (crop : CropData) (st : String),
      crop.soil_type_preference = none ∨ crop.soil_type_preference = some [] →
      soilScoreEnh crop (some st) = (0, []) ∧
      ∀ (t r : ℚ) (ph : Option ℚ) (sf : ℚ × List String),
        enhancedScoreFactors crop t r (some st) ph = Except.ok sf →
          "soil_suboptimal" ∉ sf.2 ∧ "soil_optimal" ∉ sf.2 := by
  intro crop st hpref
  have hsoil : soilScoreEnh crop (some st) = (0, []) := by
    rcases hpref with hp | hp <;> simp [soilScoreEnh, hp]
  refine ⟨hsoil, ?_⟩
  intro t r ph sf h
  obtain ⟨tf, rf, htf, hrf, _, hs2⟩ := enhancedScoreFactors_ok h
  rw [hsoil] at hs2
  rcases tempScoreEnh_ok_factor htf with h1 | h1 | h1 <;>
    rcases rainScoreEnh_ok_factor hrf with h2 | h2 | h2 <;>
    rcases phScoreEnh_factor crop ph with h3 | h3 | h3 <;>
    rw [hs2, h1, h2, h3] <;> decide

/-- Witness for C8 (amended), on the empty-soil-list profile with clay soil
supplied. -/
theorem c8_empty_soil_skipped_unflagged_witness :
    soilScoreEnh emptySoilCrop (some "clay") = (0, []) ∧
    "soil_suboptimal" ∉ ["temperature_optimal", "rainfall_optimal"] := by
  have h := c8_empty_soil_skipped_unflagged emptySoilCrop "clay" (Or.inr rfl)
  exact ⟨h.1,
    (h.2 25 800 none (3/5, ["temperature_optimal", "rainfall_optimal"])
      enh_emptySoil_clay).1⟩

end AgriAI
